import Mathlib

/-!
Shallow embedding of `src/resources/user.rs` from the searchspot repository:
the `Talent` entity, its ElasticSearch query builders (`visibility_filters`,
`search_filters`, `full_text_search`, `sorting_criteria`), the `search`
orchestration and post-processing, and the `reset_index` schema definition.

External effects (the ElasticSearch client) are modelled by passing the
engine's response in as data; the panic of `Option::unwrap` is modelled by
`Option` (with `none` standing for the panic).  Floating-point relevance
scores are modelled by rationals; the comparisons involved (`> 0.9`,
tie-breaker `0.0`) are exact on any linearly ordered field.
-/

namespace Searchspot

/-- A scalar or array value of the loosely-typed request-parameter map
(the external `params` crate's `Value`). -/
inductive PValue where
  | pstr (s : String)
  | pint (n : Int)
  | pbool (b : Bool)
  | parr (vs : List PValue)

/-- The string-keyed request-parameter map (the external `params` crate's
`Map`), as an association list. -/
def Params := List (String × PValue)

/-- `Map::get`: first binding of a key, if any. -/
def Params.get (params : Params) (key : String) : Option PValue :=
  match params.find? (fun kv => kv.fst == key) with
  | some kv => some kv.snd
  | none => none

/-- A value appearing in a `term` / `terms` query. -/
inductive TermValue where
  | s (x : String)
  | i (x : Int)
  | b (x : Bool)
deriving DecidableEq

/-- The multi-match query type of `rs_es` (`MatchQueryType`); only
`CrossFields` is used by this code. -/
inductive MatchQueryType where
  | bestFields
  | mostFields
  | crossFields
  | phrase
deriving DecidableEq

/-- The abstract ElasticSearch query tree built by `rs_es` builders, with
exactly the node kinds this code constructs: term-match, terms-match
(OR of values), range (optional inclusive bounds `lte` / `gte` and a date
format), multi-field text match, and a boolean node with must (AND),
should (OR) and must-not (NOT) branches. -/
inductive Query where
  | term (field : String) (value : TermValue)
  | terms (field : String) (values : List TermValue)
  | range (field : String) (lte : Option String) (gte : Option String)
      (format : Option String)
  | multiMatch (fields : List String) (query : String)
      (matchType : MatchQueryType) (tieBreaker : ℚ)
  | bool (must : List Query) (should : List Query) (mustNot : List Query)

/-- The must (boolean-AND) branch of a boolean query node. -/
def Query.mustOf : Query → List Query
  | .bool m _ _ => m
  | _ => []

/-- The should (boolean-OR) branch of a boolean query node. -/
def Query.shouldOf : Query → List Query
  | .bool _ s _ => s
  | _ => []

/-- The must-not (boolean-NOT) branch of a boolean query node. -/
def Query.mustNotOf : Query → List Query
  | .bool _ _ mn => mn
  | _ => []

/-- Modelled from the spec: `searchspot::terms::VectorOfTerms::build_terms`
(code of this repository not under `src/`).  Per the spec, a filter category
is "an OR over the values supplied", and "empty-valued filters contribute
nothing, i.e. are omitted rather than forcing zero results": the result is
an empty vector of queries for an empty value set, and otherwise a single
OR-of-terms node over the values. -/
def build_terms (field : String) (values : List TermValue) : List Query :=
  if values.isEmpty then [] else [Query.terms field values]

/-- Modelled from the spec: the searchspot crate's string-sequence parameter
accessor `vec_from_params!` (code of this repository not under `src/`).
Per the spec's parameter-source contract, `getArray(key)` yields the ordered
sequence of scalars for the key; an absent key yields the empty sequence
("absent or empty filter values are treated as no constraint"). -/
def vecFromParams (params : Params) (key : String) : List String :=
  match Params.get params key with
  | none => []
  | some (PValue.pstr s) => [s]
  | some (PValue.parr vs) =>
    vs.filterMap (fun v =>
      match v with
      | PValue.pstr s => some s
      | _ => none)
  | some _ => []

/-- Conversion of one parameter scalar to an integer (string scalars are
parsed, as in the crate's typed accessors). -/
def pvToInt : PValue → Option Int
  | PValue.pint n => some n
  | PValue.pstr s => s.toInt?
  | _ => none

/-- Modelled from the spec: the searchspot crate's integer-sequence
parameter accessor `i32_vec_from_params!` (code of this repository not
under `src/`).  Same contract as `vecFromParams`, for integer values. -/
def i32VecFromParams (params : Params) (key : String) : List Int :=
  match Params.get params key with
  | none => []
  | some (PValue.parr vs) => vs.filterMap pvToInt
  | some v => (pvToInt v).toList

/-- The `visibility_rules` boolean node of `Talent::visibility_filters`:
AND of `accepted == true`, `batch_starts_at <= epoch` (inclusive) and
`batch_ends_at >= epoch` (inclusive), both ranges with the
`dateOptionalTime` format. -/
def visibility_rules (epoch : String) : Query :=
  Query.bool
    [ Query.term "accepted" (TermValue.b true)
    , Query.range "batch_starts_at" (some epoch) none (some "dateOptionalTime")
    , Query.range "batch_ends_at" none (some epoch) (some "dateOptionalTime") ]
    []
    []

/-- `Talent::visibility_filters`: the standard visibility rule, wrapped in
a should (OR) node together with a presented-talents term filter whenever
the presented list is non-empty. -/
def visibility_filters (epoch : String) (presented_talents : List Int) :
    List Query :=
  if !presented_talents.isEmpty then
    let presented_talents_filters :=
      Query.bool
        (List.flatten [build_terms "ids" (presented_talents.map TermValue.i)])
        [] []
    [ Query.bool []
        [visibility_rules epoch, presented_talents_filters]
        [] ]
  else
    [visibility_rules epoch]

/-- `Talent::full_text_search`: a cross-fields multi-match over `skills`
and `summary` with tie-breaker `0.0`, or `None` when the `keywords`
parameter is absent, not a string, or the empty string. -/
def full_text_search (params : Params) : Option Query :=
  match Params.get params "keywords" with
  | some (PValue.pstr keywords) =>
    if keywords.isEmpty then none
    else
      some (Query.multiMatch ["skills", "summary"] keywords
        MatchQueryType.crossFields 0)
  | some _ => none
  | none => none

/-- `Talent::search_filters`: the composite boolean query.  Each positive
filter category contributes through `build_terms` (so empty categories are
flattened away); the must-not branch holds the company exclusions. -/
def search_filters (params : Params) (epoch : String) : Query :=
  let company_id := i32VecFromParams params "company_id"
  Query.bool
    (List.flatten
      [ build_terms "work_roles"
          ((vecFromParams params "work_roles").map TermValue.s)
      , build_terms "work_experience"
          ((vecFromParams params "work_experience").map TermValue.s)
      , build_terms "work_authorization"
          ((vecFromParams params "work_authorization").map TermValue.s)
      , build_terms "work_locations"
          ((vecFromParams params "work_locations").map TermValue.s)
      , build_terms "id"
          ((i32VecFromParams params "ids").map TermValue.i)
      , (match full_text_search params with
         | some keywords => [keywords]
         | none => [])
      , visibility_filters epoch
          (i32VecFromParams params "presented_talents") ])
    []
    (List.flatten
      [ build_terms "company_ids" (company_id.map TermValue.i)
      , build_terms "blocked_companies" (company_id.map TermValue.i) ])

/-- Sort direction (`rs_es` `Order`). -/
inductive SortOrder where
  | asc
  | desc
deriving DecidableEq

/-- One sort key (`rs_es` `SortField`). -/
structure SortField where
  field : String
  order : SortOrder
deriving DecidableEq

/-- `Talent::sorting_criteria`: descending by `batch_starts_at`, then
`weight`, then `added_to_batch_at`. -/
def sorting_criteria : List SortField :=
  [ { field := "batch_starts_at", order := SortOrder.desc }
  , { field := "weight", order := SortOrder.desc }
  , { field := "added_to_batch_at", order := SortOrder.desc } ]

/-- The `Talent` entity (`u32` identifiers as `Nat`, `i32` weight as
`Int`). -/
structure Talent where
  id : Nat
  accepted : Bool
  work_roles : List String
  work_experience : String
  work_locations : List String
  work_authorization : String
  skills : List String
  summary : String
  company_ids : List Nat
  batch_starts_at : String
  batch_ends_at : String
  added_to_batch_at : String
  weight : Int
  blocked_companies : List Nat

/-- One search hit: an optional relevance score and an optional source
document. -/
structure Hit where
  score : Option ℚ
  source : Option Talent

/-- An error from the search engine (`rs_es` `EsError`), reduced to its
message. -/
structure EsError where
  msg : String

/-- The request issued by `Talent::search` to the engine: target indexes,
the composite query, an optional explicit sort, and the result-window
size. -/
structure SearchRequest where
  indexes : List String
  query : Query
  sort : Option (List SortField)
  size : Nat

/-- The hit filter of `Talent::search`: keep a hit when its score is
absent, or present and strictly greater than `0.9`. -/
def keepHit (hit : Hit) : Bool :=
  match hit.score with
  | some score => decide (score > 9 / 10)
  | none => true

/-- `Vec::dedup` of Rust: remove consecutive duplicates, keeping the first
element of each run. -/
def rustDedup {α : Type} [DecidableEq α] : List α → List α
  | [] => []
  | [a] => [a]
  | a :: b :: t =>
    if a = b then rustDedup (b :: t) else a :: rustDedup (b :: t)

/-- The `.map(|hit| hit.source.unwrap().id)` step of `Talent::search`:
`none` models the panic of `unwrap` on a hit without a source document. -/
def unwrapSources : List Hit → Option (List Nat)
  | [] => some []
  | hit :: rest =>
    match hit.source with
    | none => none
    | some talent => (unwrapSources rest).map (fun ids => talent.id :: ids)

/-- The post-processing of `Talent::search` on a successful engine
response: filter by score, unwrap each source to its id, then dedup. -/
def processHits (hits : List Hit) : Option (List Nat) :=
  (unwrapSources (hits.filter keepHit)).map rustDedup

/-- The `keywords_present` flag computed by `Talent::search`: a `keywords`
parameter exists, is a string, and is non-empty. -/
def keywordsPresent (params : Params) : Bool :=
  match Params.get params "keywords" with
  | some (PValue.pstr keywords) => !keywords.isEmpty
  | some _ => false
  | none => false

/-- The epoch resolution of `Talent::search`: the `epoch` parameter when it
is a string, otherwise the current timestamp `now`. -/
def epochOf (params : Params) (now : String) : String :=
  match Params.get params "epoch" with
  | some (PValue.pstr epoch) => epoch
  | _ => now

/-- The target-index resolution of `Talent::search`: the `index` parameter
when it is a string, otherwise the default index. -/
def indexOf (params : Params) (defaultIndex : String) : List String :=
  match Params.get params "index" with
  | some (PValue.pstr index) => [index]
  | _ => [defaultIndex]

/-- The request `Talent::search` issues: size fixed at 1000, and the
explicit sort attached exactly in the non-text-search mode. -/
def mkSearchRequest (defaultIndex : String) (params : Params) (now : String) :
    SearchRequest :=
  { indexes := indexOf params defaultIndex
  , query := search_filters params (epochOf params now)
  , sort := if keywordsPresent params then none else some sorting_criteria
  , size := 1000 }

/-- What `Talent::search` produces: the lines printed by `println!` and the
identifier list (`none` models a panic). -/
structure SearchOutput where
  log : List String
  ids : Option (List Nat)

/-- `Talent::search`, with the engine modelled as a function from the
issued request to a response: on success post-process the hits, on failure
log the error and return the empty list. -/
def search (engine : SearchRequest → Except EsError (List Hit))
    (defaultIndex : String) (params : Params) (now : String) : SearchOutput :=
  match engine (mkSearchRequest defaultIndex params now) with
  | Except.ok hits => { log := [], ids := processHits hits }
  | Except.error err => { log := [err.msg], ids := some [] }

/-- A JSON-like value (`serde_json::Value` as used in the settings). -/
inductive Json where
  | str (s : String)
  | num (n : Nat)
  | jbool (b : Bool)
  | arr (xs : List Json)
  | obj (fields : List (String × Json))

/-- The `Analysis` settings block: token filters and analyzers. -/
structure Analysis where
  filter : List (String × Json)
  analyzer : List (String × Json)

/-- The index `Settings`: shard count and analysis configuration. -/
structure Settings where
  number_of_shards : Nat
  analysis : Analysis

/-- The ElasticSearch document type used for a `Talent`. -/
def ES_TYPE : String := "talent"

/-- The hardcoded field mapping of `Talent::reset_index`, field by field;
each field maps to its property list. -/
def talentMapping : List (String × List (String × String)) :=
  [ ("id", [("type", "integer"), ("index", "not_analyzed")])
  , ("work_roles", [("type", "string"), ("index", "not_analyzed")])
  , ("work_experience", [("type", "string"), ("index", "not_analyzed")])
  , ("work_locations", [("type", "string"), ("index", "not_analyzed")])
  , ("work_authorization", [("type", "string"), ("index", "not_analyzed")])
  , ("skills",
      [("type", "string"), ("analyzer", "trigrams"),
       ("search_analyzer", "words")])
  , ("summary",
      [("type", "string"), ("analyzer", "trigrams"),
       ("search_analyzer", "words")])
  , ("company_ids", [("type", "integer"), ("index", "not_analyzed")])
  , ("accepted", [("type", "boolean"), ("index", "not_analyzed")])
  , ("batch_starts_at",
      [("type", "date"), ("format", "dateOptionalTime"),
       ("index", "not_analyzed")])
  , ("batch_ends_at",
      [("type", "date"), ("format", "dateOptionalTime"),
       ("index", "not_analyzed")])
  , ("added_to_batch_at",
      [("type", "date"), ("format", "dateOptionalTime"),
       ("index", "not_analyzed")])
  , ("weight", [("type", "integer"), ("index", "not_analyzed")])
  , ("blocked_companies", [("type", "integer"), ("index", "not_analyzed")]) ]

/-- The hardcoded analyzer settings of `Talent::reset_index`: one shard;
an n-gram filter of lengths 2 through 20; a word-delimiter filter that
preserves the original token; a `trigrams` indexing analyzer (whitespace,
lowercase, word-delimiter, n-gram) and a `words` search analyzer
(whitespace, lowercase, word-delimiter; no n-gram). -/
def talentSettings : Settings :=
  { number_of_shards := 1
  , analysis :=
    { filter :=
      [ ("trigrams_filter", Json.obj
          [ ("type", Json.str "ngram")
          , ("min_gram", Json.num 2)
          , ("max_gram", Json.num 20) ])
      , ("words_filter", Json.obj
          [ ("type", Json.str "word_delimiter")
          , ("preserve_original", Json.jbool true) ]) ]
    , analyzer :=
      [ ("trigrams", Json.obj
          [ ("type", Json.str "custom")
          , ("tokenizer", Json.str "whitespace")
          , ("filter", Json.arr
              [ Json.str "lowercase"
              , Json.str "words_filter"
              , Json.str "trigrams_filter" ]) ])
      , ("words", Json.obj
          [ ("type", Json.str "custom")
          , ("tokenizer", Json.str "whitespace")
          , ("filter", Json.arr
              [ Json.str "lowercase"
              , Json.str "words_filter" ]) ]) ] } }

/-- An operation issued to the engine by `Talent::reset_index`. -/
inductive EsOp where
  | deleteIndex (index : String)
  | createMapping (index : String) (docType : String)
      (mapping : List (String × List (String × String)))
      (settings : Settings)

/-- `Talent::reset_index` as the sequence of engine operations it issues:
an unconditional delete of the index, then its re-creation with the
hardcoded mapping and settings. -/
def reset_index (index : String) : List EsOp :=
  [ EsOp.deleteIndex index
  , EsOp.createMapping index ES_TYPE talentMapping talentSettings ]

/-- A concrete entity used to instantiate theorems (the fixture with id 4
from the repository's test data). -/
def sampleTalent : Talent :=
  { id := 4
  , accepted := true
  , work_roles := ["Fullstack", "DevOps"]
  , work_experience := "1..2"
  , work_locations := ["Berlin"]
  , work_authorization := "yes"
  , skills := ["ClojureScript", "C++"]
  , summary := "ClojureScript right now, previously C++"
  , company_ids := [6]
  , batch_starts_at := "2008-01-01T12:00:00+00:00"
  , batch_ends_at := "2020-01-01T12:00:00+00:00"
  , added_to_batch_at := "2011-01-01T12:00:00+00:00"
  , weight := 0
  , blocked_companies := [] }

/-- `rustDedup` only ever drops elements: its result is a sublist of its
input, in the input's order. -/
theorem rustDedup_sublist {α : Type} [DecidableEq α] :
    (l : List α) → List.Sublist (rustDedup l) l
  | [] => by simp [rustDedup]
  | [a] => by simp [rustDedup]
  | a :: b :: t => by
    rw [rustDedup]
    by_cases hab : a = b
    · rw [if_pos hab]
      exact (rustDedup_sublist (b :: t)).cons a
    · rw [if_neg hab]
      exact (rustDedup_sublist (b :: t)).cons₂ a

/-- When every hit in the list carries a source document, unwrapping
succeeds and yields the identifiers in order. -/
theorem unwrapSources_eq :
    (l : List Hit) → (∀ hit ∈ l, hit.source.isSome = true) →
    unwrapSources l = some (l.filterMap (fun hit => hit.source.map Talent.id))
  | [], _ => rfl
  | hit :: rest, h => by
    have hhit : hit.source.isSome = true := h hit (by simp)
    obtain ⟨talent, ht⟩ := Option.isSome_iff_exists.mp hhit
    have ih := unwrapSources_eq rest (fun x hx => h x (by simp [hx]))
    simp [unwrapSources, ht, ih, List.filterMap_cons]

/-- C1: for every parameter map and epoch, `search_filters` puts each
supplied filter category (role tags, work-experience, work-authorization,
locations, id allow-list, free-text, visibility) into the boolean-AND
(must) branch; each category's values form a single OR-of-terms node, a
category with an empty value set contributes no sub-query, and the should
branch is empty. -/
theorem search_filters_must_branch (params : Params) (epoch : String) :
    Query.mustOf (search_filters params epoch) =
      build_terms "work_roles"
        ((vecFromParams params "work_roles").map TermValue.s) ++
      build_terms "work_experience"
        ((vecFromParams params "work_experience").map TermValue.s) ++
      build_terms "work_authorization"
        ((vecFromParams params "work_authorization").map TermValue.s) ++
      build_terms "work_locations"
        ((vecFromParams params "work_locations").map TermValue.s) ++
      build_terms "id"
        ((i32VecFromParams params "ids").map TermValue.i) ++
      (match full_text_search params with
        | some keywords => [keywords]
        | none => []) ++
      visibility_filters epoch (i32VecFromParams params "presented_talents") ∧
    Query.shouldOf (search_filters params epoch) = [] ∧
    ∀ field vals, build_terms field vals =
      if vals = [] then [] else [Query.terms field vals] := by
  refine ⟨?_, rfl, ?_⟩
  · simp [search_filters, Query.mustOf, List.append_assoc]
  · intro field vals
    cases vals <;> simp [build_terms]

/-- C2: `visibility_filters` returns exactly one query node: when the
presented list is empty, the standard rule AND(accepted == true,
batch_starts_at <= epoch, batch_ends_at >= epoch) with both range bounds
inclusive; when the presented list is non-empty, a boolean-OR of the
standard rule and a branch holding the identifier-equality terms for
exactly the presented list, bypassing the standard rule. -/
theorem visibility_filters_spec (epoch : String) (pts : List Int) :
    visibility_filters epoch pts =
      [ if pts = [] then visibility_rules epoch
        else Query.bool []
          [ visibility_rules epoch
          , Query.bool [Query.terms "ids" (pts.map TermValue.i)] [] [] ]
          [] ] ∧
    visibility_rules epoch =
      Query.bool
        [ Query.term "accepted" (TermValue.b true)
        , Query.range "batch_starts_at" (some epoch) none
            (some "dateOptionalTime")
        , Query.range "batch_ends_at" none (some epoch)
            (some "dateOptionalTime") ]
        [] [] := by
  refine ⟨?_, rfl⟩
  cases pts <;> simp [visibility_filters, build_terms]

/-- C4: the must-not branch of the query built by `search_filters` holds,
whenever company-identifier values are supplied, an OR-of-terms node over
the owning-company field and an OR-of-terms node over the blocked-company
field, both over the same supplied company id values; with no company id
supplied the must-not branch is empty. -/
theorem search_filters_must_not_branch (params : Params) (epoch : String) :
    Query.mustNotOf (search_filters params epoch) =
      (if i32VecFromParams params "company_id" = [] then []
       else
        [ Query.terms "company_ids"
            ((i32VecFromParams params "company_id").map TermValue.i)
        , Query.terms "blocked_companies"
            ((i32VecFromParams params "company_id").map TermValue.i) ]) := by
  cases h : i32VecFromParams params "company_id" <;>
    simp [search_filters, Query.mustNotOf, build_terms, h]

/-- C3: on a successful engine response, post-processing keeps exactly the
hits whose relevance score is absent or strictly greater than 0.9, maps
them to their identifiers, and removes consecutive duplicate identifiers;
the result is a sublist of the mapped sequence in the engine's order, so
nothing is re-sorted. -/
theorem search_postprocessing (hits : List Hit)
    (h : ∀ hit ∈ hits, keepHit hit = true → hit.source.isSome = true) :
    processHits hits =
      some (rustDedup ((hits.filter keepHit).filterMap
        (fun hit => hit.source.map Talent.id))) ∧
    List.Sublist
      (rustDedup ((hits.filter keepHit).filterMap
        (fun hit => hit.source.map Talent.id)))
      ((hits.filter keepHit).filterMap
        (fun hit => hit.source.map Talent.id)) ∧
    ∀ hit : Hit, keepHit hit =
      (match hit.score with
       | some score => decide (score > 9 / 10)
       | none => true) := by
  refine ⟨?_, rustDedup_sublist _, fun hit => rfl⟩
  have hall : ∀ hit ∈ hits.filter keepHit, hit.source.isSome = true := by
    intro hit hmem
    rcases List.mem_filter.mp hmem with ⟨h1, h2⟩
    exact h hit h1 h2
  simp [processHits, unwrapSources_eq _ hall]

/-- Witness for C3: a scored hit above the threshold is kept, a hit at
score 0 is dropped (so its missing source is never unwrapped), an
unscored hit is kept, and the consecutive duplicate id is removed. -/
theorem search_postprocessing_witness :
    processHits
      [ { score := some 1, source := some sampleTalent }
      , { score := some 0, source := none }
      , { score := none, source := some sampleTalent } ] = some [4] := by
  have k1 : keepHit { score := some 1, source := some sampleTalent } = true := by
    simp only [keepHit, decide_eq_true_eq]
    norm_num
  have k2 : keepHit { score := some 0, source := none } = false := by
    simp only [keepHit, decide_eq_false_iff_not]
    norm_num
  have k3 : keepHit { score := none, source := some sampleTalent } = true := rfl
  have h := search_postprocessing
    [ { score := some 1, source := some sampleTalent }
    , { score := some 0, source := none }
    , { score := none, source := some sampleTalent } ]
    (by
      intro hit hmem hk
      simp only [List.mem_cons, List.not_mem_nil, or_false] at hmem
      rcases hmem with h1 | h2 | h3
      · subst h1; rfl
      · subst h2; rw [k2] at hk; exact absurd hk (by simp)
      · subst h3; rfl)
  rw [h.1]
  simp only [List.filter_cons, k1, k2, k3, if_true, if_false]
  simp [List.filterMap_cons, rustDedup, sampleTalent]

/-- C5: `full_text_search` returns none exactly when the keywords
parameter holds no non-empty string, and on a non-empty keywords string it
returns the multi-field match over exactly the fields skills and summary,
with cross-fields matching semantics and the tie-breaker fixed at zero. -/
theorem full_text_search_spec (params : Params) :
    (full_text_search params = none ↔
      ∀ s : String, Params.get params "keywords" = some (PValue.pstr s) →
        s = "") ∧
    ∀ s : String, Params.get params "keywords" = some (PValue.pstr s) →
      s ≠ "" →
      full_text_search params =
        some (Query.multiMatch ["skills", "summary"] s
          MatchQueryType.crossFields 0) := by
  unfold full_text_search
  cases hk : Params.get params "keywords" with
  | none => simp
  | some v =>
    cases v with
    | pstr s =>
      by_cases hs : s = ""
      · subst hs
        simp [String.isEmpty_iff]
      · have hse : s.isEmpty = false := by
          cases h2 : s.isEmpty
          · rfl
          · exact absurd ((String.isEmpty_iff s).mp h2) hs
        simp [hse, hs]
    | pint n => simp
    | pbool b => simp
    | parr vs => simp

/-- Witness for C5: a concrete parameter map with keywords "rust" yields
the cross-fields multi-match over skills and summary. -/
theorem full_text_search_spec_witness :
    full_text_search [("keywords", PValue.pstr "rust")] =
      some (Query.multiMatch ["skills", "summary"] "rust"
        MatchQueryType.crossFields 0) :=
  (full_text_search_spec [("keywords", PValue.pstr "rust")]).2 "rust" rfl
    (by decide)

/-- C6: every issued request has the fixed result window 1000; the explicit
sort is attached exactly when no non-empty keywords string parameter is
present, and it is the fixed descending three-key ordering batch-start,
weight, joined-batch. -/
theorem search_request_spec (defaultIndex : String) (params : Params)
    (now : String) :
    (mkSearchRequest defaultIndex params now).size = 1000 ∧
    ((mkSearchRequest defaultIndex params now).sort =
      if keywordsPresent params then none else some sorting_criteria) ∧
    (keywordsPresent params = true ↔
      ∃ s : String, s ≠ "" ∧
        Params.get params "keywords" = some (PValue.pstr s)) ∧
    sorting_criteria =
      [ { field := "batch_starts_at", order := SortOrder.desc }
      , { field := "weight", order := SortOrder.desc }
      , { field := "added_to_batch_at", order := SortOrder.desc } ] := by
  refine ⟨rfl, rfl, ?_, rfl⟩
  unfold keywordsPresent
  cases hk : Params.get params "keywords" with
  | none => simp
  | some v =>
    cases v with
    | pstr s =>
      simp
      rw [← String.isEmpty_iff]
      cases s.isEmpty <;> simp
    | pint n => simp
    | pbool b => simp
    | parr vs => simp

/-- C7: whenever the engine returns an error for the issued request,
`search` logs the error message and returns the empty identifier list; the
failure is never propagated. -/
theorem search_absorbs_engine_errors
    (engine : SearchRequest → Except EsError (List Hit))
    (defaultIndex : String) (params : Params) (now : String) (e : EsError)
    (h : engine (mkSearchRequest defaultIndex params now) = Except.error e) :
    search engine defaultIndex params now =
      { log := [e.msg], ids := some [] } := by
  simp [search, h]

/-- Witness for C7: an engine that always fails makes `search` return the
empty list with the error logged. -/
theorem search_absorbs_engine_errors_witness :
    search (fun _ => Except.error { msg := "connection refused" })
      "talent" [] "now" =
      { log := ["connection refused"], ids := some [] } :=
  search_absorbs_engine_errors _ "talent" [] "now"
    { msg := "connection refused" } rfl

/-- C9: post-processing is total exactly under the precondition that every
hit passing the score filter carries a source document; a kept hit without
a source makes the unconditional unwrap panic (modelled as `none`), both in
`processHits` and through `search` on such an engine response. -/
theorem search_source_unwrap_totality :
    (∀ hits : List Hit,
      (∀ hit ∈ hits, keepHit hit = true → hit.source.isSome = true) →
      (processHits hits).isSome = true) ∧
    processHits [{ score := none, source := none }] = none ∧
    search (fun _ => Except.ok [{ score := none, source := none }])
      "talent" [] "now" = { log := [], ids := none } := by
  refine ⟨?_, rfl, rfl⟩
  intro hits h
  have hall : ∀ hit ∈ hits.filter keepHit, hit.source.isSome = true := by
    intro hit hmem
    rcases List.mem_filter.mp hmem with ⟨h1, h2⟩
    exact h hit h1 h2
  simp [processHits, unwrapSources_eq _ hall]

/-- Witness for C9: on a response whose kept hits all carry sources,
post-processing returns an identifier list. -/
theorem search_source_unwrap_totality_witness :
    (processHits [{ score := some 1, source := some sampleTalent }]).isSome =
      true :=
  search_source_unwrap_totality.1
    [{ score := some 1, source := some sampleTalent }]
    (by
      intro hit hmem _
      have h := List.mem_singleton.mp hmem
      subst h
      rfl)

/-- C10: the text-search detection of `search` agrees with
`full_text_search`: relevance-ranking mode (no explicit sort) is selected
exactly when `full_text_search` returns some query; in particular a
keywords value that is present but not a string behaves like an absent
parameter in both. -/
theorem keywords_detection_agrees (params : Params) :
    keywordsPresent params = (full_text_search params).isSome ∧
    ((mkSearchRequest "talent" params "now").sort = none ↔
      (full_text_search params).isSome = true) ∧
    ∀ v : PValue, (∀ s : String, v ≠ PValue.pstr s) →
      keywordsPresent (("keywords", v) :: params) = keywordsPresent [] ∧
      full_text_search (("keywords", v) :: params) = full_text_search [] := by
  have h1 : keywordsPresent params = (full_text_search params).isSome := by
    unfold keywordsPresent full_text_search
    cases hk : Params.get params "keywords" with
    | none => rfl
    | some v =>
      cases v with
      | pstr s => cases hse : s.isEmpty <;> simp [hse]
      | pint n => rfl
      | pbool b => rfl
      | parr vs => rfl
  refine ⟨h1, ?_, ?_⟩
  · show (if keywordsPresent params then none else some sorting_criteria) =
      none ↔ (full_text_search params).isSome = true
    rw [h1]
    cases (full_text_search params).isSome <;> simp
  · intro v hv
    cases v with
    | pstr s => exact absurd rfl (hv s)
    | pint n => exact ⟨rfl, rfl⟩
    | pbool b => exact ⟨rfl, rfl⟩
    | parr vs => exact ⟨rfl, rfl⟩

/-- Witness for C10: a keywords value present as the integer 3 behaves
like an absent keywords parameter for both the detection flag and
`full_text_search`. -/
theorem keywords_detection_agrees_witness :
    keywordsPresent [("keywords", PValue.pint 3)] = keywordsPresent [] ∧
    full_text_search [("keywords", PValue.pint 3)] = full_text_search [] :=
  (keywords_detection_agrees []).2.2 (PValue.pint 3)
    (fun _ h => PValue.noConfusion h)

/-- C8: `reset_index` deletes the named index first and then creates it
with one shard; the indexing analyzer `trigrams` tokenizes on whitespace,
lower-cases, applies the original-preserving word-delimiter filter, then
the n-gram filter for substrings of length 2 through 20; the search-time
analyzer `words` applies the same whitespace tokenization, lower-casing
and word-delimiter filter without the n-gram step; the two free-text
fields skills and summary are mapped to these analyzers and every other
field is mapped as an unanalyzed exact-match type. -/
theorem reset_index_schema (index : String) :
    reset_index index =
      [ EsOp.deleteIndex index
      , EsOp.createMapping index ES_TYPE talentMapping talentSettings ] ∧
    talentSettings.number_of_shards = 1 ∧
    List.lookup "trigrams_filter" talentSettings.analysis.filter =
      some (Json.obj
        [ ("type", Json.str "ngram")
        , ("min_gram", Json.num 2)
        , ("max_gram", Json.num 20) ]) ∧
    List.lookup "words_filter" talentSettings.analysis.filter =
      some (Json.obj
        [ ("type", Json.str "word_delimiter")
        , ("preserve_original", Json.jbool true) ]) ∧
    List.lookup "trigrams" talentSettings.analysis.analyzer =
      some (Json.obj
        [ ("type", Json.str "custom")
        , ("tokenizer", Json.str "whitespace")
        , ("filter", Json.arr
            [ Json.str "lowercase"
            , Json.str "words_filter"
            , Json.str "trigrams_filter" ]) ]) ∧
    List.lookup "words" talentSettings.analysis.analyzer =
      some (Json.obj
        [ ("type", Json.str "custom")
        , ("tokenizer", Json.str "whitespace")
        , ("filter", Json.arr
            [ Json.str "lowercase"
            , Json.str "words_filter" ]) ]) ∧
    List.lookup "skills" talentMapping =
      some [("type", "string"), ("analyzer", "trigrams"),
            ("search_analyzer", "words")] ∧
    List.lookup "summary" talentMapping =
      some [("type", "string"), ("analyzer", "trigrams"),
            ("search_analyzer", "words")] ∧
    (talentMapping.all (fun f =>
      (f.fst == "skills" || f.fst == "summary") ||
        (List.lookup "index" f.snd == some "not_analyzed"))) = true :=
  ⟨rfl, rfl, rfl, rfl, rfl, rfl, rfl, rfl, rfl⟩

end Searchspot
